import Mathlib

/-!
Verification of the metadata-resolution and status-tracking core of the
lidarr-music-importer repository, as a shallow embedding in Lean 4.

The embedding translates, from the Python sources:
- `lib/text_utils.py` : `normalize_artist_name`, `get_edition_variants`,
  `normalize_album_title_for_matching`;
- `lib/csv_handler.py` : the `ItemStatus` predicates,
  `CSVHandler.filter_items_by_status`, `CSVHandler.update_single_status`;
- `lib/musicbrainz_client.py` : `MusicBrainzClient.search_artists`,
  `search_release_groups`, `_generate_title_variations`,
  `_build_release_group_queries`, `_is_artist_match`, and the candidate
  selection logic of `search_release_groups`.

External collaborators are parameters of the embedding:
- the HTTP transport is an oracle `resp : String → Option …` mapping a query
  string to the (already shape-normalized) candidate list of a successful
  response, or `none` for a transport failure / unparsable body;
- `rapidfuzz.fuzz.ratio` and `fuzz.token_set_ratio` are abstract functions
  `String → String → Nat`;
- `unicodedata.normalize('NFKD', ·)` is an abstract `nfkd : String → String`
  (it is the identity on the ASCII inputs used in concrete evaluations).

Python string primitives are re-implemented over `List Char` (ASCII-faithful:
`str.lower`, `str.strip`, `str.title`, `str.isupper`, substring containment,
`str.split()`), because the kernel cannot reduce Lean's byte-position-based
core `String` functions on concrete inputs.

The `limit` argument of the search methods only shapes the HTTP request
parameters (`'limit': str(limit)`) and never enters the filtering or
selection logic; the transport oracle absorbs it together with the other
fixed request parameters (`inc`, `fmt`).
-/

/-! ### Python string primitives -/

/-- Python `s.lower()` (ASCII letters; the inputs of this development are ASCII). -/
def pyLower (s : String) : String := ⟨s.data.map Char.toLower⟩

/-- Python `s.upper()` (ASCII letters). -/
def pyUpper (s : String) : String := ⟨s.data.map Char.toUpper⟩

/-- Python `s.strip()` with no argument: remove leading and trailing whitespace. -/
def pyStrip (s : String) : String :=
  ⟨((s.data.dropWhile Char.isWhitespace).reverse.dropWhile Char.isWhitespace).reverse⟩

/-- Python `s.strip(chars)`: remove leading and trailing characters drawn from `cs`. -/
def pyStripChars (cs : List Char) (s : String) : String :=
  ⟨((s.data.dropWhile cs.contains).reverse.dropWhile cs.contains).reverse⟩

/-- Python `s.startswith(p)`. -/
def pyStartsWith (s p : String) : Bool := p.data.isPrefixOf s.data

/-- Python `s.endswith(p)`. -/
def pyEndsWith (s p : String) : Bool := p.data.isSuffixOf s.data

/-- Python `sub in s` (substring containment; `""` is contained in everything). -/
def strContains (s sub : String) : Bool :=
  go s.data sub.data
where
  go : List Char → List Char → Bool
    | _, [] => true
    | [], _ :: _ => false
    | c :: cs, t => t.isPrefixOf (c :: cs) || go cs t

/-- Python `s[n:]`. -/
def pyDropLeft (s : String) (n : Nat) : String := ⟨s.data.drop n⟩

/-- Python `s[:n]`. -/
def pyTakeLeft (s : String) (n : Nat) : String := ⟨s.data.take n⟩

/-- One step of the word-splitting fold used by `pyWords`. -/
def pyAddChar (c : Char) (ws : List (List Char)) : List (List Char) :=
  if c.isWhitespace then [] :: ws
  else match ws with
    | [] => [[c]]
    | w :: rest => (c :: w) :: rest

/-- Python `s.split()` with no argument: split on whitespace runs, dropping
empty fields. -/
def pyWords (s : String) : List String :=
  ((s.data.foldr pyAddChar []).filter (fun w => w ≠ [])).map String.mk

/-- Python `str.title()` for ASCII: a letter is uppercased when the preceding
character is not a letter, lowercased otherwise. -/
def pyTitleAux : Bool → List Char → List Char
  | _, [] => []
  | prevAlpha, c :: cs =>
    (if c.isAlpha then (if prevAlpha then c.toLower else c.toUpper) else c) ::
      pyTitleAux c.isAlpha cs

/-- Python `s.title()` (ASCII). -/
def pyTitle (s : String) : String := ⟨pyTitleAux false s.data⟩

/-- Python `s.isupper()`: at least one cased character and no lowercase cased
character (for ASCII, cased = letter). -/
def pyIsUpper (s : String) : Bool :=
  let cased := s.data.filter Char.isAlpha
  !cased.isEmpty && cased.all Char.isUpper

/-- Python `s.replace(c, r)` for a single-character pattern `c`. -/
def pyReplaceChar (c : Char) (r : String) (s : String) : String :=
  ⟨s.data.foldr (fun ch acc => if ch = c then r.data ++ acc else ch :: acc) []⟩

/-- Python falsy-based `x or default` for an optional integer field: `None`
and `0` both fall through to the default. -/
def pyOrNat (x : Option Nat) (d : Nat) : Nat :=
  match x with
  | some n => if n = 0 then d else n
  | none => d

/-- Python truthiness of an optional string: `None` and `""` are falsy. -/
def pyTruthy : Option String → Bool
  | some s => s ≠ ""
  | none => false

/-- Python `dict.get(k, [])` on an association-list alias table. -/
def aliasLookup (tbl : List (String × List String)) (k : String) : List String :=
  match tbl.find? (fun p => p.1 = k) with
  | some p => p.2
  | none => []

/-! ### Stable descending sort

Python's `list.sort(key=…, reverse=True)` is a stable descending sort: among
elements with equal keys the original order is preserved.  `sortByKeyDesc`
implements exactly that (stable insertion sort on a key into `Nat × Nat`,
compared lexicographically as Python compares key tuples).  Single-integer
sort keys from the source are embedded as `(key, 0)`. -/

/-- Lexicographic `≥` on Python key tuples. -/
def pairGE (a b : Nat × Nat) : Bool := b.1 < a.1 || (a.1 = b.1 && b.2 ≤ a.2)

/-- Insert `x` after every already-placed element whose key is `≥` its key. -/
def insertByKey {α : Type} (k : α → Nat × Nat) (x : α) : List α → List α
  | [] => [x]
  | y :: ys => if pairGE (k y) (k x) then y :: insertByKey k x ys else x :: y :: ys

/-- Stable descending sort by key, as Python `sort(key=k, reverse=True)`. -/
def sortByKeyDesc {α : Type} (k : α → Nat × Nat) (l : List α) : List α :=
  l.foldl (fun acc x => insertByKey k x acc) []

/-! ### `lib/text_utils.py` -/

/-- Character class removed by `normalize_artist_name`: the regex
`['‘’‚‛"“”„‟``´\-\._]`
(apostrophes, curly quotes, double quotes, backticks, acute accent, hyphen,
period, underscore). -/
def artistPunctChars : List Char :=
  ['\x27', '‘', '’', '‚', '‛', '"',
   '“', '”', '„', '‟', '\x60', '\x60', '´', '-', '.', '_']

/-- Embeds `text_utils.normalize_artist_name`: NFKD-normalize, lowercase,
strip, then delete every character of `artistPunctChars`.  `nfkd` abstracts
`unicodedata.normalize('NFKD', ·)`. -/
def normalize_artist_name (nfkd : String → String) (name : String) : String :=
  let result := pyStrip (pyLower (nfkd name))
  ⟨result.data.filter (fun c => !artistPunctChars.contains c)⟩

/-- Embeds `text_utils.get_edition_variants`. -/
def get_edition_variants : List String :=
  [" (deluxe)", " (deluxe edition)", " - deluxe edition", " [deluxe]",
   " (expanded)", " (expanded edition)", " - expanded edition", " [expanded]",
   " (remastered)", " (remaster)", " - remastered", " [remastered]",
   " (special edition)", " - special edition", " [special edition]",
   " (anniversary edition)", " - anniversary edition", " [anniversary edition]",
   " (collector\x27s edition)", " - collector\x27s edition", " [collector\x27s edition]",
   " (bonus track version)", " - bonus track version", " [bonus track version]"]

/-- Embeds `text_utils.normalize_album_title_for_matching`: lowercase, strip,
then remove the first matching edition suffix (only one). -/
def normalize_album_title_for_matching (title : String) : String :=
  let normalized := pyStrip (pyLower title)
  match get_edition_variants.find? (fun v => pyEndsWith normalized v) with
  | some v => pyStrip (pyTakeLeft normalized (normalized.data.length - v.data.length))
  | none => normalized

/-! ### `lib/csv_handler.py` : `ItemStatus` -/

namespace ItemStatus

def SUCCESS : String := "success"
def PENDING_REFRESH : String := "pending_refresh"
def PENDING_IMPORT : String := "pending_import"
def SKIP : String := "skip"
def SKIP_NO_MUSICBRAINZ : String := "skip_no_musicbrainz"
def SKIP_NO_ARTIST_MATCH : String := "skip_no_artist_match"
def SKIP_API_ERROR : String := "skip_api_error"
def SKIP_ARTIST_EXISTS : String := "skip_artist_exists"
def SKIP_ALBUM_MB_NORESULTS : String := "skip_album_mb_noresults"
def ALREADY_MONITORED : String := "already_monitored"
def ERROR_CONNECTION : String := "error_connection"
def ERROR_TIMEOUT : String := "error_timeout"
def ERROR_INVALID_DATA : String := "error_invalid_data"
def ERROR_UNKNOWN : String := "error_unknown"
def DRY_RUN : String := "dry_run"

/-- Embeds `ItemStatus.is_success`: membership in the tuple `(cls.SUCCESS,)`. -/
def is_success (status : String) : Bool := [SUCCESS].contains status

/-- Embeds `ItemStatus.is_pending`. -/
def is_pending (status : String) : Bool :=
  [PENDING_REFRESH, PENDING_IMPORT].contains status

/-- Embeds `ItemStatus.is_skip`. -/
def is_skip (status : String) : Bool :=
  [SKIP, SKIP_NO_MUSICBRAINZ, SKIP_NO_ARTIST_MATCH, SKIP_API_ERROR,
   SKIP_ARTIST_EXISTS, SKIP_ALBUM_MB_NORESULTS, ALREADY_MONITORED].contains status

/-- Embeds `ItemStatus.is_error`. -/
def is_error (status : String) : Bool :=
  [ERROR_CONNECTION, ERROR_TIMEOUT, ERROR_INVALID_DATA, ERROR_UNKNOWN].contains status

/-- Embeds `ItemStatus.should_retry`. -/
def should_retry (status : String) : Bool :=
  status == "" || is_error status || is_pending status

end ItemStatus

/-! ### `lib/csv_handler.py` : `CSVHandler` -/

/-- A work item as read by `CSVHandler.read_items` (the fields relevant to
status filtering). -/
structure WorkItem where
  artist : String
  album : String
  status : String
deriving DecidableEq, Repr

/-- Embeds `CSVHandler.filter_items_by_status`: drop an item when
(`skip_completed` and success) or (`skip_permanent_failures` and permanent
skip); keep everything else (empty, pending, errors). -/
def filter_items_by_status (items : List WorkItem)
    (skip_completed skip_permanent_failures : Bool) : List WorkItem :=
  items.filter (fun item =>
    !(skip_completed && ItemStatus.is_success item.status) &&
    !(skip_permanent_failures && ItemStatus.is_skip item.status))

/-- A CSV row as held in memory by `CSVHandler.update_single_status`:
the `artist`, `album` and `status` columns plus any other columns
(`extra`, an association list preserved verbatim). -/
structure CsvRow where
  artist : String
  album : String
  status : String
  extra : List (String × String)
deriving DecidableEq, Repr

/-- The matching key `f"{row['artist']}|{row['album']}"` built by
`update_single_status` for each row. -/
def rowKey (r : CsvRow) : String := r.artist ++ "|" ++ r.album

/-- The update loop of `update_single_status`: set `status` on the first row
whose key equals `key` (the Python loop `break`s after the first match). -/
def updateFirstByKey (key status : String) : List CsvRow → List CsvRow
  | [] => []
  | r :: rs =>
    if rowKey r = key then { r with status := status } :: rs
    else r :: updateFirstByKey key status rs

/-- Embeds `CSVHandler.update_single_status` on the in-memory row list: when
some row key matches `artist + "|" + album` the first such row's status is
replaced and the file is rewritten; when none matches the method returns
before writing, leaving the file unchanged. -/
def update_single_status (artist album status : String) (rows : List CsvRow) :
    List CsvRow :=
  let key := artist ++ "|" ++ album
  if rows.any (fun r => rowKey r = key) then updateFirstByKey key status rows
  else rows

/-! ### `lib/musicbrainz_client.py` : artist search

The transport oracle `resp : String → Option (List ArtistRaw)` maps the query
string sent to the `artist` endpoint to the candidate objects of a successful
response (`none` = transport failure, non-200 status or unparsable body).
`ratio` abstracts `rapidfuzz.fuzz.ratio`. -/

/-- An artist object as delivered by the wire response (after the JSON/XML
shape normalization of `_extract_artists_from_root`): `id`, `name`, and the
raw relevance-score field (`score` / `ext:score`, absent ⇒ `none`). -/
structure ArtistRaw where
  id : String
  name : String
  score : Option Nat
deriving DecidableEq, Repr

/-- A collected artist candidate (an entry of the `collected` dict in
`search_artists`).  The Python code deletes the `similarity` key from the
returned dicts just before returning; the embedding keeps the field. -/
structure CandidateArtist where
  id : String
  name : String
  score : Nat
  similarity : Nat
  is_quoted : Bool
deriving DecidableEq, Repr

/-- One step of the merge-by-id loops of `search_artists` (lines 274-294 and
334-349): an already-collected id takes the max similarity and max score and
is (re)marked quoted; a new id is appended marked quoted. -/
def collectStep (ratio : String → String → Nat) (term : String)
    (acc : List CandidateArtist) (a : ArtistRaw) : List CandidateArtist :=
  let sim := ratio term (pyLower a.name)
  let sc := pyOrNat a.score 100
  if acc.any (fun e => e.id = a.id) then
    acc.map (fun e =>
      if e.id = a.id then
        { e with similarity := max e.similarity sim, score := max e.score sc,
                 is_quoted := true }
      else e)
  else acc ++ [⟨a.id, a.name, sc, sim, true⟩]

/-- The merge loop over one response's candidates, starting from an already
collected list. -/
def collectArtists (ratio : String → String → Nat) (term : String)
    (init : List CandidateArtist) (raw : List ArtistRaw) : List CandidateArtist :=
  raw.foldl (collectStep ratio term) init

/-- Bracket stripping of `search_artists` line 256: `artist.strip('[]')` when
the name both starts with `[` and ends with `]`. -/
def search_artist_of (artist : String) : String :=
  if pyStartsWith artist "[" && pyEndsWith artist "]" then
    pyStripChars ['[', ']'] artist
  else artist

/-- The quoted query `f'artist:"{search_artist}"'` issued by `search_artists`. -/
def quoted_query (artist : String) : String :=
  "artist:\"" ++ search_artist_of artist ++ "\""

/-- Phase 1 of `search_artists` (lines 264-294): issue the quoted query and
build `collected`; result is `(quoted_failed, collected)`. -/
def search_artists_phase1 (ratio : String → String → Nat)
    (resp : String → Option (List ArtistRaw)) (artist : String) :
    Bool × List CandidateArtist :=
  match resp (quoted_query artist) with
  | none => (true, [])
  | some raw =>
    (false, collectArtists ratio (pyLower (search_artist_of artist)) [] raw)

/-- Phases 1-2 of `search_artists` (through line 349): the early empty return
when nothing was collected, then the retry of the quoted query guarded by
`not has_quoted and quoted_failed`.  Returns the merged candidate list
(`artist_list`) together with the trace of issued query strings. -/
def search_artists_merged (ratio : String → String → Nat)
    (resp : String → Option (List ArtistRaw)) (artist : String) :
    List CandidateArtist × List String :=
  let q := quoted_query artist
  let p1 := search_artists_phase1 ratio resp artist
  let quoted_failed := p1.1
  let collected := p1.2
  if collected = [] then ([], [q])
  else if !(collected.any (fun a => a.is_quoted)) && quoted_failed then
    match resp q with
    | none => (collected, [q, q])
    | some raw2 =>
      (collectArtists ratio (pyLower (search_artist_of artist)) collected raw2,
       [q, q])
  else (collected, [q])

/-- The similarity filter of `search_artists` (lines 363-368): keep
candidates with similarity ≥ 70; if none remain but candidates exist, relax
once to ≥ 60. -/
def relax_filter (artist_list : List CandidateArtist) : List CandidateArtist :=
  let filtered := artist_list.filter (fun a => 70 ≤ a.similarity)
  if filtered = [] ∧ artist_list ≠ [] then
    artist_list.filter (fun a => 60 ≤ a.similarity)
  else filtered

/-- The ranking key of `search_artists._sort_key` (lines 375-385):
`(quoted_boost + prefix_boost + similarity, ext_score)` where the prefix
boost fires when the query's first token is one of `dj`/`the`/`mc` and the
candidate's normalized name starts with it. -/
def artist_sort_key (nfkd : String → String) (artist : String)
    (x : CandidateArtist) : Nat × Nat :=
  let search_tokens := pyWords (pyLower (search_artist_of artist))
  let search_pfx : Option String :=
    match search_tokens with
    | t :: _ => if t = "dj" ∨ t = "the" ∨ t = "mc" then some t else none
    | [] => none
  let norm_name := normalize_artist_name nfkd x.name
  let has_pfx := match search_pfx with
    | some p => pyStartsWith norm_name p
    | none => false
  let pfx_boost := if has_pfx then 1000 else 0
  let quoted_boost := if x.is_quoted then 2000 else 0
  (quoted_boost + pfx_boost + x.similarity, x.score)

/-- Embeds `MusicBrainzClient.search_artists` (the returned `artist-list`):
quoted query, merge by id, similarity filter with single relaxation, stable
descending sort by the composite key.  The `if … = []` branch is the early
`return {"artist-list": []}` of line 302. -/
def search_artists (ratio : String → String → Nat) (nfkd : String → String)
    (resp : String → Option (List ArtistRaw)) (artist : String) :
    List CandidateArtist :=
  let m := search_artists_merged ratio resp artist
  if m.1 = [] then []
  else sortByKeyDesc (artist_sort_key nfkd artist) (relax_filter m.1)

/-- The trace of query strings `search_artists` sends to the transport. -/
def search_artists_requests (ratio : String → String → Nat)
    (resp : String → Option (List ArtistRaw)) (artist : String) : List String :=
  (search_artists_merged ratio resp artist).2

/-! ### `lib/musicbrainz_client.py` : release-group search -/

/-- A release-group candidate in the internal shape shared by the JSON and
XML parsing paths (`_extract_release_groups_from_json` /
`_parse_release_groups`): id, title, artist-credit phrase, catalog score
(`ext:score`), relation URLs, optional first release date and track count. -/
structure ReleaseGroup where
  id : String
  title : String
  artist_credit_phrase : String
  score : Nat
  urls : List String
  first_release_date : Option String
  track_count : Option Nat
deriving DecidableEq, Repr

/-- Embeds `MusicBrainzClient._is_artist_match`: empty credit phrase or empty
query artist never match; then normalized containment, then the alias table,
then token-set similarity ≥ 70.  `tsr` abstracts `fuzz.token_set_ratio`. -/
def is_artist_match (tsr : String → String → Nat) (nfkd : String → String)
    (artist_credit_phrase artist : String)
    (artist_aliases : List (String × List String)) : Bool :=
  if artist_credit_phrase = "" ∨ artist = "" then false
  else
    let credit_norm := normalize_artist_name nfkd artist_credit_phrase
    let artist_norm := normalize_artist_name nfkd artist
    if strContains credit_norm artist_norm then true
    else if (aliasLookup artist_aliases artist).any
        (fun a => strContains credit_norm (normalize_artist_name nfkd a)) then true
    else 70 ≤ tsr artist_norm credit_norm

/-- The guarded append used throughout `_generate_title_variations`: append a
variation only when `extraOk` holds (the non-emptiness guards of the source)
and it is not already present. -/
def appendIfNew (vs : List String) (v : String) (extraOk : Bool) : List String :=
  if extraOk && !(vs.contains v) then vs ++ [v] else vs

/-- One iteration of the prefix-stripping loop of
`_generate_title_variations` (lines 632-638): when the lowercased title
starts with the prefix, append the stripped remainder if non-empty and new. -/
def variationStripStep (title title_lower : String) (vs : List String)
    (pfx : String) : List String :=
  if pyStartsWith title_lower pfx then
    appendIfNew vs (pyStrip (pyDropLeft title pfx.data.length))
      (pyStrip (pyDropLeft title pfx.data.length) ≠ "")
  else vs

/-- Embeds `MusicBrainzClient._generate_title_variations`: original first,
then prefix-stripped (`ep `, `single `, `the `, `a `), Title Case when the
original is fully lowercase, uppercase for short non-uppercase titles,
ampersand expansion, punctuation removal — each appended only if new. -/
def generate_title_variations (title : String) : List String :=
  let variations := [title]
  let title_lower := pyStrip (pyLower title)
  let variations := ["ep ", "single ", "the ", "a "].foldl
    (variationStripStep title title_lower) variations
  let variations :=
    if title_lower = title then appendIfNew variations (pyTitle title) true
    else variations
  let variations :=
    if title.data.length ≤ 6 && !pyIsUpper title then
      appendIfNew variations (pyUpper title) true
    else variations
  let variations := appendIfNew variations (pyReplaceChar '&' "and" title) true
  let no_punct := String.intercalate " "
    (pyWords ⟨title.data.filter (fun ch => ch.isAlphanum || ch.isWhitespace)⟩)
  appendIfNew variations no_punct (no_punct ≠ "")

/-- Embeds `MusicBrainzClient._build_release_group_queries`: the progressive
artist+title query cascade, with a dedicated branch for bracket-wrapped
artist names and cleaned variants for names containing `!` or `$`. -/
def build_release_group_queries (artist releasegroup : String) : List String :=
  if strContains artist "[" && strContains artist "]" then
    let bracket_content := pyStripChars ['[', ']'] artist
    ["artist:\"" ++ artist ++ "\" AND releasegroup:\"" ++ releasegroup ++ "\"",
     "artist:\"" ++ bracket_content ++ "\" AND releasegroup:\"" ++ releasegroup ++ "\"",
     "artist:" ++ artist ++ " AND releasegroup:\"" ++ releasegroup ++ "\"",
     "artist:" ++ bracket_content ++ " releasegroup:" ++ releasegroup]
  else
    let clean_artist := pyReplaceChar '$' "S" (pyReplaceChar '!' "I" artist)
    (["artist:\"" ++ artist ++ "\" AND releasegroup:\"" ++ releasegroup ++ "\""] ++
     (if clean_artist ≠ artist then
        ["artist:\"" ++ clean_artist ++ "\" AND releasegroup:\"" ++ releasegroup ++ "\""]
      else []) ++
     ["artist:" ++ artist ++ " AND releasegroup:\"" ++ releasegroup ++ "\""] ++
     (if clean_artist ≠ artist then
        ["artist:" ++ clean_artist ++ " releasegroup:" ++ releasegroup]
      else []))

/-- The identity-constrained queries of `search_release_groups` lines 446-449,
used when an artist MBID is available. -/
def arid_queries (artist_mbid title_variant : String) : List String :=
  ["arid:" ++ artist_mbid ++ " AND releasegroup:\"" ++ title_variant ++ "\"",
   "arid:" ++ artist_mbid ++ " AND releasegroup:" ++ title_variant]

/-- Query list for one title variation (`search_release_groups` lines
444-451): `arid:` queries when `bool(artist_mbid)` is truthy, otherwise the
name-based cascade. -/
def queries_for_variant (artist : String) (artist_mbid : Option String)
    (title_variant : String) : List String :=
  if pyTruthy artist_mbid then arid_queries (artist_mbid.getD "") title_variant
  else build_release_group_queries artist title_variant

/-- Word character of the regex metacharacter `\b` (`[A-Za-z0-9_]`). -/
def wordChar (c : Char) : Bool := c.isAlphanum || c = '_'

/-- Tail of the volume regex after `vol`/`vol.`/`volume`:
`\s*#?:?\s*(\d+)\b` — returns the digit group. -/
def volRest (cs : List Char) : Option String :=
  let cs1 := cs.dropWhile Char.isWhitespace
  let cs2 := match cs1 with
    | '#' :: t => t
    | _ => cs1
  let cs3 := match cs2 with
    | ':' :: t => t
    | _ => cs2
  let cs4 := cs3.dropWhile Char.isWhitespace
  let ds := cs4.takeWhile Char.isDigit
  if ds = [] then none
  else match cs4.drop ds.length with
    | [] => some ⟨ds⟩
    | c :: _ => if wordChar c then none else some ⟨ds⟩

/-- Attempt to match `vol(?:\.|ume)?\s*#?:?\s*(\d+)\b` (case-insensitive) at
the head of the character list. -/
def volAt : List Char → Option String
  | v :: o :: l :: rest =>
    if v.toLower = 'v' ∧ o.toLower = 'o' ∧ l.toLower = 'l' then
      match rest with
      | '.' :: t => volRest t
      | u :: m :: e :: t =>
        if u.toLower = 'u' ∧ m.toLower = 'm' ∧ e.toLower = 'e' then volRest t
        else volRest rest
      | _ => volRest rest
    else none
  | _ => none

/-- Scanning helper for `volScan`: try each position, requiring the word
boundary `\b` before the match (previous character absent or non-word). -/
def volScanAux : Option Char → List Char → Option String
  | _, [] => none
  | prev, c :: cs =>
    let boundaryOk := match prev with
      | none => true
      | some p => !wordChar p
    match (if boundaryOk then volAt (c :: cs) else none) with
    | some d => some d
    | none => volScanAux (some c) cs

/-- Embeds `re.search(r"\bvol(?:\.|ume)?\s*#?:?\s*(\d+)\b", s, re.IGNORECASE)`
from `search_release_groups` lines 538 and 544, returning the digit group of
the leftmost match. -/
def volScan (s : String) : Option String := volScanAux none s.data

/-- The Spotify URL test of `search_release_groups` lines 508-511 for one
relation URL. -/
def spotifyUrlMatch (sid u : String) : Bool :=
  u ≠ "" &&
    (strContains u sid ||
     strContains u ("open.spotify.com/album/" ++ sid) ||
     strContains u ("spotify:album:" ++ sid))

/-- Step (1) of the selection block (`search_release_groups` lines 503-515):
candidates whose relation URLs reference the supplied Spotify album id
(empty when `bool(spotify_album_id)` is falsy, i.e. the step is skipped). -/
def spotify_matches (spotify_album_id : Option String)
    (rg_list : List ReleaseGroup) : List ReleaseGroup :=
  if pyTruthy spotify_album_id then
    rg_list.filter (fun rg => rg.urls.any (spotifyUrlMatch (spotify_album_id.getD "")))
  else []

/-- Step (2) of the selection block (lines 518-528): candidates whose
first-release-date starts with the requested date's 4-digit year. -/
def year_matches (release_date : Option String)
    (rg_list : List ReleaseGroup) : List ReleaseGroup :=
  if pyTruthy release_date then
    rg_list.filter (fun rg =>
      let fr := rg.first_release_date.getD ""
      fr ≠ "" && pyStartsWith fr (pyTakeLeft (pyStrip (release_date.getD "")) 4))
  else []

/-- Step (3) of the selection block (line 531): candidates whose title equals
the searched variation after `.strip().lower()`. -/
def exact_title_matches (title_variant : String)
    (rg_list : List ReleaseGroup) : List ReleaseGroup :=
  rg_list.filter (fun rg => pyLower (pyStrip rg.title) = pyLower (pyStrip title_variant))

/-- Step (5) of the selection block (lines 561-569): stable descending order
by client-side title similarity (normalized, edition-suffix-stripped), then
catalog score. -/
def fuzzy_ranked (tsr : String → String → Nat) (title_variant : String)
    (rg_list : List ReleaseGroup) : List ReleaseGroup :=
  sortByKeyDesc
    (fun rg =>
      (tsr (normalize_album_title_for_matching title_variant)
           (normalize_album_title_for_matching rg.title),
       rg.score))
    rg_list

/-- Embeds the candidate-selection block of `search_release_groups`
(lines 501-569), applied to the non-empty artist-filtered candidate list of
one query: (1) Spotify-id URL match, (2) release-year match, (3) exact title
match (case-insensitive), (4) same volume number — empty result when the
searched title carries a volume number no candidate shares, (5) otherwise
stable descending order by (title similarity, catalog score).  Each step
short-circuits when it yields at least one candidate; step (1) returns its
matches unsorted, as the source does. -/
def select_from_rg_list (tsr : String → String → Nat) (title_variant : String)
    (rg_list : List ReleaseGroup)
    (spotify_album_id release_date : Option String) : List ReleaseGroup :=
  let spotMatches := spotify_matches spotify_album_id rg_list
  if spotMatches ≠ [] then spotMatches
  else
    let yearMatches := year_matches release_date rg_list
    if yearMatches ≠ [] then sortByKeyDesc (fun rg => (rg.score, 0)) yearMatches
    else
      let exact := exact_title_matches title_variant rg_list
      if exact ≠ [] then sortByKeyDesc (fun rg => (rg.score, 0)) exact
      else
        match volScan title_variant with
        | some wanted_vol =>
          let volMatches := rg_list.filter (fun rg => volScan rg.title = some wanted_vol)
          if volMatches ≠ [] then sortByKeyDesc (fun rg => (rg.score, 0)) volMatches
          else []
        | none => fuzzy_ranked tsr title_variant rg_list

/-- The per-query inner loop of `search_release_groups` (lines 453-571): on a
transport failure or when artist filtering leaves nothing, continue with the
next query; on a non-empty filtered list, select and return. -/
def tryQueries (tsr : String → String → Nat) (nfkd : String → String)
    (resp : String → Option (List ReleaseGroup)) (artist : String)
    (artist_aliases : List (String × List String))
    (spotify_album_id release_date : Option String) (title_variant : String) :
    List String → Option (List ReleaseGroup)
  | [] => none
  | q :: rest =>
    match resp q with
    | none =>
      tryQueries tsr nfkd resp artist artist_aliases spotify_album_id release_date
        title_variant rest
    | some rgs =>
      let rg_list := rgs.filter (fun rg =>
        is_artist_match tsr nfkd rg.artist_credit_phrase artist artist_aliases)
      if rg_list = [] then
        tryQueries tsr nfkd resp artist artist_aliases spotify_album_id release_date
          title_variant rest
      else some (select_from_rg_list tsr title_variant rg_list spotify_album_id
        release_date)

/-- The outer loop of `search_release_groups` over title variations
(lines 440-571). -/
def tryVariants (tsr : String → String → Nat) (nfkd : String → String)
    (resp : String → Option (List ReleaseGroup)) (artist : String)
    (artist_mbid : Option String) (artist_aliases : List (String × List String))
    (spotify_album_id release_date : Option String) :
    List String → Option (List ReleaseGroup)
  | [] => none
  | v :: rest =>
    match tryQueries tsr nfkd resp artist artist_aliases spotify_album_id
        release_date v (queries_for_variant artist artist_mbid v) with
    | some r => some r
    | none =>
      tryVariants tsr nfkd resp artist artist_mbid artist_aliases spotify_album_id
        release_date rest

/-- The final releasegroup-only fallback loop of `search_release_groups`
(lines 577-611): one unconstrained query per title variation, same artist
filter, returning the first non-empty filtered list unselected. -/
def tryFallback (tsr : String → String → Nat) (nfkd : String → String)
    (resp : String → Option (List ReleaseGroup)) (artist : String)
    (artist_aliases : List (String × List String)) :
    List String → Option (List ReleaseGroup)
  | [] => none
  | v :: rest =>
    match resp ("releasegroup:\"" ++ v ++ "\"") with
    | none => tryFallback tsr nfkd resp artist artist_aliases rest
    | some rgs =>
      let rg_list := rgs.filter (fun rg =>
        is_artist_match tsr nfkd rg.artist_credit_phrase artist artist_aliases)
      if rg_list = [] then tryFallback tsr nfkd resp artist artist_aliases rest
      else some rg_list

/-- Embeds `MusicBrainzClient.search_release_groups` (the returned
`release-group-list`): title variations, per-variation query cascade with
artist filtering and candidate selection, then the releasegroup-only
fallback, then the empty result. -/
def search_release_groups (tsr : String → String → Nat) (nfkd : String → String)
    (resp : String → Option (List ReleaseGroup)) (artist releasegroup : String)
    (artist_aliases : List (String × List String))
    (artist_mbid spotify_album_id release_date : Option String) :
    List ReleaseGroup :=
  let title_variations := generate_title_variations releasegroup
  match tryVariants tsr nfkd resp artist artist_mbid artist_aliases
      spotify_album_id release_date title_variations with
  | some r => r
  | none =>
    match tryFallback tsr nfkd resp artist artist_aliases title_variations with
    | some r => r
    | none => []

/-! ### Concrete instantiations of the external collaborators

These fix the abstract parameters for concrete evaluations: `nfkdId` because
NFKD normalization is the identity on the ASCII strings used below, and
constant similarity functions standing in for `rapidfuzz` where a theorem
holds for every similarity function or where only a fixed value is needed. -/

/-- NFKD normalization restricted to ASCII input, where it is the identity. -/
def nfkdId : String → String := fun s => s

/-- A similarity function that never helps a match (constant 0). -/
def tsrZero : String → String → Nat := fun _ _ => 0

/-- A constant similarity function returning 80 (above both thresholds). -/
def ratio80 : String → String → Nat := fun _ _ => 80

/-- A transport oracle on which every request fails. -/
def respNone : String → Option (List ArtistRaw) := fun _ => none

/-- An artist-endpoint oracle returning a single candidate named `Eevee` with
catalog score 90 on every query. -/
def respEevee : String → Option (List ArtistRaw) :=
  fun _ => some [⟨"id1", "Eevee", some 90⟩]

/-- The collected form of the `respEevee` candidate under `ratio80`. -/
def caEevee : CandidateArtist := ⟨"id1", "Eevee", 90, 80, true⟩

/-- A release-group credited exactly to `AJ Suede`, titled `Dog Man Star`. -/
def rgAJ : ReleaseGroup := ⟨"rg-aj", "Dog Man Star", "AJ Suede", 90, [], none, none⟩

/-- A release-group oracle: the first (quoted) query for artist `Suede`,
album `Dog Man Star` returns only the `AJ Suede`-credited candidate. -/
def respSuede : String → Option (List ReleaseGroup) :=
  fun q =>
    if q = "artist:\"Suede\" AND releasegroup:\"Dog Man Star\"" then some [rgAJ]
    else none

/-- A release-group titled `Hits Pt. 2` credited to `A`. -/
def rgPt2 : ReleaseGroup := ⟨"rg-pt2", "Hits Pt. 2", "A", 95, [], none, none⟩

/-- A release-group oracle: the first (quoted) query for artist `A`, album
`Hits Pt. 5` returns only the `Hits Pt. 2` candidate. -/
def respPt : String → Option (List ReleaseGroup) :=
  fun q =>
    if q = "artist:\"A\" AND releasegroup:\"Hits Pt. 5\"" then some [rgPt2]
    else none

/-- An exact-title candidate with the lower catalog score. -/
def rgWinterExact : ReleaseGroup := ⟨"rg-x", "Winter", "A", 80, [], none, none⟩

/-- A near-title candidate with the strictly higher catalog score. -/
def rgWinterNear : ReleaseGroup := ⟨"rg-n", "Winter Tales", "A", 99, [], none, none⟩

/-- Candidates titled `Hits Vol. 2` and `Hits Vol. 3` for the volume-guard
scenario. -/
def rgVol2 : ReleaseGroup := ⟨"rg-v2", "Hits Vol. 2", "A", 90, [], none, none⟩

/-- Candidate titled `Hits Vol. 3` (see `rgVol2`). -/
def rgVol3 : ReleaseGroup := ⟨"rg-v3", "Hits Vol. 3", "A", 91, [], none, none⟩

/-- A retryable-error work item used as a concrete filtering instance. -/
def wiTimeout : WorkItem := ⟨"A", "X", "error_timeout"⟩

/-- A permanent-skip work item used as a concrete filtering instance. -/
def wiSkip : WorkItem := ⟨"B", "Y", "skip_api_error"⟩

/-- A two-item work list with one retryable and one permanent-skip item. -/
def items0 : List WorkItem := [wiTimeout, wiSkip]

/-! ### Helper lemmas -/

theorem mem_insertByKey {α : Type} (k : α → Nat × Nat) (x : α) (l : List α) (a : α) :
    a ∈ insertByKey k x l ↔ a = x ∨ a ∈ l := by
  induction l with
  | nil => simp [insertByKey]
  | cons y ys ih =>
    simp only [insertByKey]
    split <;> simp only [List.mem_cons, ih] <;> tauto

theorem mem_sortByKeyDesc {α : Type} (k : α → Nat × Nat) (l : List α) (a : α) :
    a ∈ sortByKeyDesc k l ↔ a ∈ l := by
  suffices h : ∀ acc : List α, a ∈ l.foldl (fun acc x => insertByKey k x acc) acc ↔
      a ∈ acc ∨ a ∈ l by
    have := h []
    simpa [sortByKeyDesc] using this
  induction l with
  | nil => intro acc; simp
  | cons y ys ih =>
    intro acc
    simp only [List.foldl_cons, ih, mem_insertByKey, List.mem_cons]
    tauto

/-! ### Claim C3 -/

/-- C3, counterexample: the claim asserts `is_success` returns true for
`already_monitored`; in `csv_handler.py` (and its test suite,
`test_csv_handler.py` line 20) `is_success` holds only for `success`, so the
claim is false at this concrete status code. -/
theorem already_monitored_is_success_counterexample :
    ¬ (ItemStatus.is_success ItemStatus.ALREADY_MONITORED = true) := by decide

/-- C3, amended: `already_monitored` is classified in the permanent-skip
class of the status taxonomy, not the success class (`is_success` is false
and `is_skip` is true for it), and it is never retried (`should_retry` is
false for it). -/
theorem already_monitored_classification :
    ItemStatus.is_success ItemStatus.ALREADY_MONITORED = false ∧
    ItemStatus.is_skip ItemStatus.ALREADY_MONITORED = true ∧
    ItemStatus.should_retry ItemStatus.ALREADY_MONITORED = false := by decide

/-! ### Claim C7 -/

/-- C7: with both skip flags enabled (the "already processed" filter),
`filter_items_by_status` keeps exactly the items whose status is neither
success-class nor permanent-skip-class; consequently, for every item list,
an `error_timeout` item is kept, a `skip_api_error` item is dropped, and
every retryable item (empty, pending or error status) is kept. -/
theorem filter_items_by_status_spec (items : List WorkItem) :
    filter_items_by_status items true true =
      items.filter (fun it =>
        !(ItemStatus.is_success it.status || ItemStatus.is_skip it.status)) ∧
    ∀ it ∈ items,
      (it.status = "error_timeout" → it ∈ filter_items_by_status items true true) ∧
      (it.status = "skip_api_error" → it ∉ filter_items_by_status items true true) ∧
      (ItemStatus.should_retry it.status = true →
        it ∈ filter_items_by_status items true true) := by
  constructor
  · unfold filter_items_by_status
    apply List.filter_congr
    intro x _
    cases hs : ItemStatus.is_success x.status <;>
      cases hk : ItemStatus.is_skip x.status <;> simp [hs, hk]
  · intro it hmem
    refine ⟨?_, ?_, ?_⟩
    · intro h
      simp only [filter_items_by_status, List.mem_filter]
      exact ⟨hmem, by simp [h]; decide⟩
    · intro h
      simp only [filter_items_by_status, List.mem_filter]
      intro hc
      have h2 := hc.2
      rw [h] at h2
      have hk : ItemStatus.is_skip "skip_api_error" = true := by decide
      rw [hk] at h2
      simp at h2
    · intro h
      simp only [filter_items_by_status, List.mem_filter]
      refine ⟨hmem, ?_⟩
      simp [ItemStatus.should_retry, ItemStatus.is_error, ItemStatus.is_pending] at h
      rcases h with h | h
      · rcases h with h | h | h | h | h <;> rw [h] <;> decide
      · rcases h with h | h <;> rw [h] <;> decide

/-- C7, witness: on the concrete two-item list `items0`, the `error_timeout`
item is kept by the "already processed" filter and the `skip_api_error` item
is dropped. -/
theorem filter_items_by_status_spec_witness :
    wiTimeout ∈ filter_items_by_status items0 true true ∧
    wiSkip ∉ filter_items_by_status items0 true true :=
  ⟨((filter_items_by_status_spec items0).2 wiTimeout (by decide)).1 rfl,
   (((filter_items_by_status_spec items0).2 wiSkip (by decide)).2).1 rfl⟩

/-! ### Claim C8 -/

theorem appendIfNew_head (t : String) (vs : List String) (v : String) (ok : Bool)
    (h : ∃ r, vs = t :: r) : ∃ r, appendIfNew vs v ok = t :: r := by
  obtain ⟨r, hr⟩ := h
  unfold appendIfNew
  split
  · exact ⟨r ++ [v], by simp [hr]⟩
  · exact ⟨r, hr⟩

theorem appendIfNew_nodup (vs : List String) (v : String) (ok : Bool)
    (h : vs.Nodup) : (appendIfNew vs v ok).Nodup := by
  unfold appendIfNew
  split
  · rename_i hc
    simp only [Bool.and_eq_true, Bool.not_eq_true'] at hc
    have hv : v ∉ vs := by
      intro hm
      have := hc.2
      simp [List.contains, List.elem_eq_mem, hm] at this
    simp [List.nodup_append, h, hv]
  · exact h

theorem foldl_variationStripStep_pres (title tl : String) (l : List String) :
    ∀ vs : List String, ((∃ r, vs = title :: r) ∧ vs.Nodup) →
      (∃ r, l.foldl (variationStripStep title tl) vs = title :: r) ∧
        (l.foldl (variationStripStep title tl) vs).Nodup := by
  induction l with
  | nil => intro vs h; simpa using h
  | cons p ps ih =>
    intro vs h
    simp only [List.foldl_cons]
    apply ih
    unfold variationStripStep
    split
    · exact ⟨appendIfNew_head _ _ _ _ h.1, appendIfNew_nodup _ _ _ h.2⟩
    · exact h

/-- C8: for every input title, `_generate_title_variations` returns the
original title as the first element and a duplicate-free sequence.  (The
function is a pure Lean function of its input, so identical inputs yield the
identical ordered sequence by definitional equality.) -/
theorem generate_title_variations_spec (title : String) :
    (generate_title_variations title).head? = some title ∧
    (generate_title_variations title).Nodup := by
  have stepIf : ∀ (c : Prop) (inst : Decidable c) (vs : List String) (v : String) (ok : Bool),
      ((∃ r, vs = title :: r) ∧ vs.Nodup) →
      (∃ r, (if c then appendIfNew vs v ok else vs) = title :: r) ∧
        (if c then appendIfNew vs v ok else vs).Nodup := by
    intro c inst vs v ok h
    split
    · exact ⟨appendIfNew_head _ _ _ _ h.1, appendIfNew_nodup _ _ _ h.2⟩
    · exact h
  have h0 : (∃ r, ([title] : List String) = title :: r) ∧ ([title] : List String).Nodup :=
    ⟨⟨[], rfl⟩, by simp⟩
  have h1 := foldl_variationStripStep_pres title (pyStrip (pyLower title))
    ["ep ", "single ", "the ", "a "] [title] h0
  have h2 := stepIf (pyStrip (pyLower title) = title) inferInstance _
    (pyTitle title) true h1
  have h3 := stepIf ((title.data.length ≤ 6 && !pyIsUpper title) = true) inferInstance _
    (pyUpper title) true h2
  have h4 : (∃ r, appendIfNew _ (pyReplaceChar '&' "and" title) true = title :: r) ∧
      (appendIfNew _ (pyReplaceChar '&' "and" title) true).Nodup :=
    ⟨appendIfNew_head _ _ _ _ h3.1, appendIfNew_nodup _ _ _ h3.2⟩
  have h5 : (∃ r, generate_title_variations title = title :: r) ∧
      (generate_title_variations title).Nodup := by
    unfold generate_title_variations
    exact ⟨appendIfNew_head _ _ _ _ h4.1, appendIfNew_nodup _ _ _ h4.2⟩
  obtain ⟨⟨r, hr⟩, hd⟩ := h5
  exact ⟨by rw [hr]; rfl, hd⟩

/-! ### Claim C9 -/

theorem updateFirstByKey_split (key st : String) (pre post : List CsvRow) (r : CsvRow)
    (hpre : ∀ x ∈ pre, rowKey x ≠ key) (hr : rowKey r = key) :
    updateFirstByKey key st (pre ++ r :: post) =
      pre ++ { r with status := st } :: post := by
  induction pre with
  | nil =>
    simp only [List.nil_append, updateFirstByKey]
    rw [if_pos hr]
  | cons p ps ih =>
    simp only [List.cons_append, updateFirstByKey]
    rw [if_neg (hpre p (by simp))]
    simp only [List.append_eq]
    rw [ih (fun x hx => hpre x (by simp [hx]))]

/-- C9, counterexample: `update_single_status` matches rows by the
concatenated string `artist + "|" + album`, not by the field pair.  With
`artist = "a|b"`, `album = "c"` the first row `("a", "b|c")` — whose fields
do not equal the given artist and album — collides on the key and receives
the status, while the exactly-matching second row `("a|b", "c")` is left
unchanged, contradicting the claim at this concrete input. -/
theorem update_single_status_counterexample :
    update_single_status "a|b" "c" "done"
        [⟨"a", "b|c", "x", []⟩, ⟨"a|b", "c", "y", []⟩] =
      [⟨"a", "b|c", "done", []⟩, ⟨"a|b", "c", "y", []⟩] ∧
    update_single_status "a|b" "c" "done"
        [⟨"a", "b|c", "x", []⟩, ⟨"a|b", "c", "y", []⟩] ≠
      [⟨"a", "b|c", "x", []⟩, ⟨"a|b", "c", "done", []⟩] := by
  constructor
  · rfl
  · decide

/-- C9, amended: `update_single_status` matches rows by the concatenated key
`artist + "|" + album`.  It changes the status field of only the first row
whose own key string equals that key; every other row, and every non-status
field of the updated row, is left unchanged, and when no row's key matches,
the row list is unchanged.  (When neither the artist nor the album contains
the `|` character, key equality coincides with exact equality of the field
pair.) -/
theorem update_single_status_spec (a b st : String) :
    (∀ (pre post : List CsvRow) (r : CsvRow),
      (∀ x ∈ pre, rowKey x ≠ a ++ "|" ++ b) → rowKey r = a ++ "|" ++ b →
      update_single_status a b st (pre ++ r :: post) =
        pre ++ { r with status := st } :: post) ∧
    (∀ rows : List CsvRow, (∀ x ∈ rows, rowKey x ≠ a ++ "|" ++ b) →
      update_single_status a b st rows = rows) := by
  constructor
  · intro pre post r hpre hr
    unfold update_single_status
    rw [if_pos]
    · exact updateFirstByKey_split _ _ _ _ _ hpre hr
    · simp only [List.any_eq_true, decide_eq_true_eq]
      exact ⟨r, by simp, hr⟩
  · intro rows hrows
    unfold update_single_status
    rw [if_neg]
    simp only [List.any_eq_true, decide_eq_true_eq]
    rintro ⟨x, hx, hk⟩
    exact hrows x hx hk

/-- C9, witness: the amended frame property evaluated at a concrete row list
— the matching row's status is replaced in place, the non-matching row and
a key-free list are untouched. -/
theorem update_single_status_spec_witness :
    update_single_status "A" "B" "success"
        [⟨"C", "D", "s", []⟩, ⟨"A", "B", "", [("mb_artist_id", "m1")]⟩] =
      [⟨"C", "D", "s", []⟩, ⟨"A", "B", "success", [("mb_artist_id", "m1")]⟩] ∧
    update_single_status "A" "B" "success" [⟨"C", "D", "s", []⟩] =
      [⟨"C", "D", "s", []⟩] :=
  ⟨(update_single_status_spec "A" "B" "success").1
      [⟨"C", "D", "s", []⟩] [] ⟨"A", "B", "", [("mb_artist_id", "m1")]⟩
      (by decide) (by decide),
   (update_single_status_spec "A" "B" "success").2 [⟨"C", "D", "s", []⟩] (by decide)⟩

/-! ### Claim C2 -/

/-- C2, counterexample: with an empty alias table, `_is_artist_match` KEEPS a
candidate whose artist-credit phrase is exactly `AJ Suede` for the query
artist `Suede` — the normalized query `suede` is a substring of the
normalized credit `aj suede`, so the containment branch accepts before
similarity is ever consulted (here the similarity function is constantly 0) —
and `search_release_groups` consequently returns that candidate, contradicting
both rejection reasons and the conclusion of the claim at this input. -/
theorem is_artist_match_suede_counterexample :
    is_artist_match tsrZero nfkdId "AJ Suede" "Suede" [] = true ∧
    search_release_groups tsrZero nfkdId respSuede "Suede" "Dog Man Star" []
      none none none = [rgAJ] := by
  constructor
  · rfl
  · rfl

/-- C2, amended: for the query artist `Suede` with an empty alias table, the
artist-identity filter KEEPS a candidate whose artist-credit phrase is
exactly `AJ Suede`, whatever the token-set similarity function returns,
because after normalization `suede` is contained in `aj suede`; consequently
`resolveReleaseGroup` can return such a candidate for that query.  (The
containment test is `artist_norm in credit_norm`, deliberately accepting
credit phrases that extend the queried name.) -/
theorem is_artist_match_suede_kept (tsr : String → String → Nat) :
    is_artist_match tsr nfkdId "AJ Suede" "Suede" [] = true ∧
    search_release_groups tsr nfkdId respSuede "Suede" "Dog Man Star" []
      none none none = [rgAJ] := by
  constructor
  · rfl
  · rfl

/-! ### Claim C5 -/

/-- C5: in the selection step of `search_release_groups`, with no Spotify
album id and no release date supplied, whenever the filtered candidate list
contains at least one exact-title match (case-insensitive, after stripping),
exactly the exact-title candidates are returned, in stable descending order
of catalog score — regardless of any other candidate's higher catalog
score. -/
theorem select_exact_title_priority (tsr : String → String → Nat)
    (title_variant : String) (rg_list : List ReleaseGroup)
    (hex : exact_title_matches title_variant rg_list ≠ []) :
    select_from_rg_list tsr title_variant rg_list none none =
      sortByKeyDesc (fun rg => (rg.score, 0))
        (exact_title_matches title_variant rg_list) := by
  simp only [select_from_rg_list]
  rw [if_neg (fun h => h rfl), if_neg (fun h => h rfl), if_pos hex]

/-- C5, witness: a candidate set holding an exact-title match with catalog
score 80 and a near match with catalog score 99 — the exact-title match
alone is returned. -/
theorem select_exact_title_priority_witness :
    select_from_rg_list tsrZero "Winter" [rgWinterNear, rgWinterExact] none none =
      [rgWinterExact] :=
  (select_exact_title_priority tsrZero "Winter" [rgWinterNear, rgWinterExact]
    (by decide)).trans (by decide)

/-! ### Claim C4 -/

/-- C4, counterexample: the claim lists `#N` and `Pt. N` among the qualifiers
that trigger the volume tie-break, but the source regex
`\bvol(?:\.|ume)?\s*#?:?\s*(\d+)\b` recognizes only `Vol`/`Vol.`/`Volume`
forms.  Searching `Hits Pt. 5` against a sole candidate titled `Hits Pt. 2`
returns that mismatched-number candidate (through the fuzzy-ranking step)
instead of the empty result the claim requires. -/
theorem volume_guard_counterexample :
    search_release_groups tsrZero nfkdId respPt "A" "Hits Pt. 5" []
      none none none = [rgPt2] ∧
    volScan "Hits Pt. 5" = none := by
  constructor
  · rfl
  · rfl

/-- C4, amended: the volume qualifiers recognized by `search_release_groups`
are `Vol N` / `Vol. N` / `Volume N` (case-insensitive, optionally with `#`
or `:` before the number); `#N` and `Pt. N` alone are not treated as volume
qualifiers.  When the searched variation carries a recognized volume number
and the selection reaches the volume step (no Spotify id, no release date,
no exact-title candidate), exactly the candidates carrying the same number
are returned in descending catalog-score order, and when no filtered
candidate carries that number the result is empty. -/
theorem select_volume_guard (tsr : String → String → Nat)
    (title_variant : String) (rg_list : List ReleaseGroup) (n : String)
    (hvol : volScan title_variant = some n)
    (hnoexact : ∀ rg ∈ rg_list,
      ¬ (pyLower (pyStrip rg.title) = pyLower (pyStrip title_variant))) :
    select_from_rg_list tsr title_variant rg_list none none =
      sortByKeyDesc (fun rg => (rg.score, 0))
        (rg_list.filter (fun rg => volScan rg.title = some n)) ∧
    (rg_list.filter (fun rg => volScan rg.title = some n) = [] →
      select_from_rg_list tsr title_variant rg_list none none = []) ∧
    ∀ rg ∈ select_from_rg_list tsr title_variant rg_list none none,
      volScan rg.title = some n := by
  have hexact : exact_title_matches title_variant rg_list = [] := by
    unfold exact_title_matches
    rw [List.filter_eq_nil_iff]
    intro rg hrg
    simpa using hnoexact rg hrg
  have hmain : select_from_rg_list tsr title_variant rg_list none none =
      (if rg_list.filter (fun rg => volScan rg.title = some n) ≠ [] then
        sortByKeyDesc (fun rg => (rg.score, 0))
          (rg_list.filter (fun rg => volScan rg.title = some n))
      else []) := by
    simp only [select_from_rg_list]
    rw [if_neg (fun h => h rfl), if_neg (fun h => h rfl), if_neg (fun h => h hexact),
      hvol]
  refine ⟨?_, ?_, ?_⟩
  · rw [hmain]
    by_cases hvm : rg_list.filter (fun rg => volScan rg.title = some n) = []
    · rw [if_neg (fun h => h hvm), hvm]
      rfl
    · rw [if_pos hvm]
  · intro hempty
    rw [hmain, if_neg (fun h => h hempty)]
  · intro rg hrg
    rw [hmain] at hrg
    by_cases hvm : rg_list.filter (fun rg => volScan rg.title = some n) = []
    · rw [if_neg (fun h => h hvm)] at hrg
      simp at hrg
    · rw [if_pos hvm] at hrg
      rw [mem_sortByKeyDesc] at hrg
      have := List.mem_filter.mp hrg
      simpa using this.2

/-- C4, witness: the volume-guard scenario of the specification — searched
title `Hits Vol. 5` against candidates titled `Hits Vol. 2` and `Hits Vol. 3`
only — yields the empty result rather than a mismatched volume. -/
theorem select_volume_guard_witness :
    select_from_rg_list tsrZero "Hits Vol. 5" [rgVol2, rgVol3] none none = [] :=
  (select_volume_guard tsrZero "Hits Vol. 5" [rgVol2, rgVol3] "5" rfl
    (by decide)).2.1 (by decide)

/-! ### Claim C1 -/

/-- C1, counterexample: on a transport oracle where every request fails, the
quoted query for `Eevee` fails transiently, yet `search_artists` issues no
further request at all — its request trace is the single quoted query — and
returns empty, contradicting the claimed unquoted fallback (and quoted
retry). -/
theorem search_artists_no_unquoted_fallback_counterexample :
    search_artists_requests tsrZero respNone "Eevee" = ["artist:\"Eevee\""] ∧
    search_artists tsrZero nfkdId respNone "Eevee" = [] := ⟨rfl, rfl⟩

/-- C1, amended: `search_artists` issues exactly one catalog query — the
quoted, exact-phrase form — for every transport behavior.  When that query
fails with a transport error, or succeeds with no candidates, the function
returns an empty list without issuing any looser unquoted query; the
quoted-retry branch of the source (guarded by
`not has_quoted and quoted_failed`) is unreachable, because reaching it
requires a non-empty collected set, which only a successful quoted query can
produce (and then `quoted_failed` is false). -/
theorem search_artists_single_quoted_query (ratio : String → String → Nat)
    (nfkd : String → String) (resp : String → Option (List ArtistRaw))
    (artist : String) :
    search_artists_requests ratio resp artist = [quoted_query artist] ∧
    (resp (quoted_query artist) = none →
      search_artists ratio nfkd resp artist = []) ∧
    (resp (quoted_query artist) = some [] →
      search_artists ratio nfkd resp artist = []) := by
  cases hresp : resp (quoted_query artist) with
  | none =>
    refine ⟨?_, fun _ => ?_, fun h => ?_⟩
    · simp [search_artists_requests, search_artists_merged, search_artists_phase1, hresp]
    · simp [search_artists, search_artists_merged, search_artists_phase1, hresp]
    · cases h
  | some raw =>
    refine ⟨?_, fun h => ?_, fun h => ?_⟩
    · by_cases hcol : collectArtists ratio (pyLower (search_artist_of artist)) [] raw = []
      · simp [search_artists_requests, search_artists_merged, search_artists_phase1,
          hresp, hcol]
      · simp [search_artists_requests, search_artists_merged, search_artists_phase1,
          hresp, hcol]
    · cases h
    · injection h with h2
      subst h2
      simp [search_artists, search_artists_merged, search_artists_phase1, hresp,
        collectArtists]

/-- C1, witness: the amended single-query property evaluated on the
all-failing transport at a concrete artist. -/
theorem search_artists_single_quoted_query_witness :
    search_artists_requests tsrZero respNone "X" = [quoted_query "X"] ∧
    search_artists tsrZero nfkdId respNone "X" = [] :=
  ⟨(search_artists_single_quoted_query tsrZero nfkdId respNone "X").1,
   (search_artists_single_quoted_query tsrZero nfkdId respNone "X").2.1 rfl⟩

/-! ### Claim C6 -/

/-- C6: every candidate returned by `search_artists` has similarity ≥ 60,
and whenever some collected candidate already scores ≥ 70, every returned
candidate scores ≥ 70 (the ≥ 60 relaxation applies only when no candidate
reaches 70, and the threshold is never lowered below 60). -/
theorem search_artists_similarity_thresholds (ratio : String → String → Nat)
    (nfkd : String → String) (resp : String → Option (List ArtistRaw))
    (artist : String) :
    (∀ c ∈ search_artists ratio nfkd resp artist, 60 ≤ c.similarity) ∧
    (∀ c0 ∈ (search_artists_merged ratio resp artist).1, 70 ≤ c0.similarity →
      ∀ c ∈ search_artists ratio nfkd resp artist, 70 ≤ c.similarity) := by
  by_cases hm : (search_artists_merged ratio resp artist).1 = []
  · constructor
    · intro c hc
      simp [search_artists, hm] at hc
    · intro c0 _ _ c hc
      simp [search_artists, hm] at hc
  · have hres : search_artists ratio nfkd resp artist =
        sortByKeyDesc (artist_sort_key nfkd artist)
          (relax_filter (search_artists_merged ratio resp artist).1) := by
      simp only [search_artists]
      rw [if_neg hm]
    have hrel : ∀ l : List CandidateArtist, relax_filter l =
        (if l.filter (fun a => 70 ≤ a.similarity) = [] ∧ l ≠ [] then
          l.filter (fun a => 60 ≤ a.similarity)
        else l.filter (fun a => 70 ≤ a.similarity)) := fun _ => rfl
    constructor
    · intro c hc
      rw [hres, mem_sortByKeyDesc, hrel] at hc
      by_cases hcond : (search_artists_merged ratio resp artist).1.filter
          (fun a => 70 ≤ a.similarity) = [] ∧
          (search_artists_merged ratio resp artist).1 ≠ []
      · rw [if_pos hcond] at hc
        have := List.mem_filter.mp hc
        simpa using this.2
      · rw [if_neg hcond] at hc
        have := List.mem_filter.mp hc
        have h70 : 70 ≤ c.similarity := by simpa using this.2
        omega
    · intro c0 hc0 h70 c hc
      rw [hres, mem_sortByKeyDesc, hrel] at hc
      have hfne : (search_artists_merged ratio resp artist).1.filter
          (fun a => 70 ≤ a.similarity) ≠ [] := by
        apply List.ne_nil_of_mem (a := c0)
        rw [List.mem_filter]
        exact ⟨hc0, by simpa using h70⟩
      rw [if_neg (fun hcond => hfne hcond.1)] at hc
      have := List.mem_filter.mp hc
      simpa using this.2

/-- C6, witness: on a transport returning one candidate whose similarity is
80 under the constant-80 ratio, the returned candidate meets both bounds. -/
theorem search_artists_similarity_thresholds_witness :
    60 ≤ caEevee.similarity ∧ 70 ≤ caEevee.similarity :=
  ⟨(search_artists_similarity_thresholds ratio80 nfkdId respEevee "Eevee").1
      caEevee (by decide),
   (search_artists_similarity_thresholds ratio80 nfkdId respEevee "Eevee").2
      caEevee (by decide) (by decide) caEevee (by decide)⟩

/-! ### Claim C10 -/

theorem mem_spotify_matches (sid : Option String) (rg_list : List ReleaseGroup)
    (rg : ReleaseGroup) (h : rg ∈ spotify_matches sid rg_list) : rg ∈ rg_list := by
  unfold spotify_matches at h
  split at h
  · exact (List.mem_filter.mp h).1
  · cases h

theorem mem_year_matches (rd : Option String) (rg_list : List ReleaseGroup)
    (rg : ReleaseGroup) (h : rg ∈ year_matches rd rg_list) : rg ∈ rg_list := by
  unfold year_matches at h
  split at h
  · exact (List.mem_filter.mp h).1
  · cases h

theorem mem_select_from_rg_list (tsr : String → String → Nat)
    (title_variant : String) (rg_list : List ReleaseGroup)
    (sid rd : Option String) (rg : ReleaseGroup)
    (h : rg ∈ select_from_rg_list tsr title_variant rg_list sid rd) :
    rg ∈ rg_list := by
  simp only [select_from_rg_list] at h
  split at h
  · exact mem_spotify_matches sid rg_list rg h
  · split at h
    · rw [mem_sortByKeyDesc] at h
      exact mem_year_matches rd rg_list rg h
    · split at h
      · rw [mem_sortByKeyDesc] at h
        exact (List.mem_filter.mp h).1
      · split at h
        · split at h
          · rw [mem_sortByKeyDesc] at h
            exact (List.mem_filter.mp h).1
          · cases h
        · rw [fuzzy_ranked, mem_sortByKeyDesc] at h
          exact h

theorem tryQueries_mem (tsr : String → String → Nat) (nfkd : String → String)
    (resp : String → Option (List ReleaseGroup)) (artist : String)
    (artist_aliases : List (String × List String)) (sid rd : Option String)
    (title_variant : String) (qs : List String) (l : List ReleaseGroup)
    (rg : ReleaseGroup)
    (h : tryQueries tsr nfkd resp artist artist_aliases sid rd title_variant qs =
      some l) (hm : rg ∈ l) :
    is_artist_match tsr nfkd rg.artist_credit_phrase artist artist_aliases = true := by
  induction qs with
  | nil => cases h
  | cons q rest ih =>
    rw [tryQueries] at h
    cases hr : resp q with
    | none =>
      simp only [hr] at h
      exact ih h
    | some rgs =>
      simp only [hr] at h
      by_cases hempty : rgs.filter (fun rg2 =>
          is_artist_match tsr nfkd rg2.artist_credit_phrase artist artist_aliases) = []
      · rw [if_pos hempty] at h
        exact ih h
      · rw [if_neg hempty] at h
        injection h with h2
        subst h2
        have hsub := mem_select_from_rg_list tsr title_variant _ sid rd rg hm
        exact (List.mem_filter.mp hsub).2

theorem tryVariants_mem (tsr : String → String → Nat) (nfkd : String → String)
    (resp : String → Option (List ReleaseGroup)) (artist : String)
    (mbid : Option String) (artist_aliases : List (String × List String))
    (sid rd : Option String) (vs : List String) (l : List ReleaseGroup)
    (rg : ReleaseGroup)
    (h : tryVariants tsr nfkd resp artist mbid artist_aliases sid rd vs = some l)
    (hm : rg ∈ l) :
    is_artist_match tsr nfkd rg.artist_credit_phrase artist artist_aliases = true := by
  induction vs with
  | nil => cases h
  | cons v rest ih =>
    rw [tryVariants] at h
    cases hq : tryQueries tsr nfkd resp artist artist_aliases sid rd v
        (queries_for_variant artist mbid v) with
    | none =>
      simp only [hq] at h
      exact ih h
    | some r =>
      simp only [hq] at h
      injection h with h2
      subst h2
      exact tryQueries_mem tsr nfkd resp artist artist_aliases sid rd v _ _ rg hq hm

theorem tryFallback_mem (tsr : String → String → Nat) (nfkd : String → String)
    (resp : String → Option (List ReleaseGroup)) (artist : String)
    (artist_aliases : List (String × List String)) (vs : List String)
    (l : List ReleaseGroup) (rg : ReleaseGroup)
    (h : tryFallback tsr nfkd resp artist artist_aliases vs = some l) (hm : rg ∈ l) :
    is_artist_match tsr nfkd rg.artist_credit_phrase artist artist_aliases = true := by
  induction vs with
  | nil => cases h
  | cons v rest ih =>
    rw [tryFallback] at h
    cases hr : resp ("releasegroup:\"" ++ v ++ "\"") with
    | none =>
      simp only [hr] at h
      exact ih h
    | some rgs =>
      simp only [hr] at h
      by_cases hempty : rgs.filter (fun rg2 =>
          is_artist_match tsr nfkd rg2.artist_credit_phrase artist artist_aliases) = []
      · rw [if_pos hempty] at h
        exact ih h
      · rw [if_neg hempty] at h
        injection h with h2
        subst h2
        exact (List.mem_filter.mp hm).2

/-- C10: the artist-identity filter `_is_artist_match` returns false whenever
the candidate's artist-credit phrase or the query artist name is the empty
string, for every similarity function and alias table; consequently no
candidate with an empty artist-credit phrase is ever an element of the list
returned by `search_release_groups`, in any query mode (with or without
artist MBID, Spotify id or release date, including the fallback query). -/
theorem artist_filter_empty_credit_guard :
    (∀ (tsr : String → String → Nat) (nfkd : String → String)
        (acp a : String) (aliases : List (String × List String)),
      acp = "" ∨ a = "" → is_artist_match tsr nfkd acp a aliases = false) ∧
    (∀ (tsr : String → String → Nat) (nfkd : String → String)
        (resp : String → Option (List ReleaseGroup))
        (artist releasegroup : String)
        (aliases : List (String × List String))
        (mbid sid rd : Option String) (rg : ReleaseGroup),
      rg ∈ search_release_groups tsr nfkd resp artist releasegroup aliases mbid sid rd →
      rg.artist_credit_phrase ≠ "") := by
  have hfalse : ∀ (tsr : String → String → Nat) (nfkd : String → String)
      (acp a : String) (aliases : List (String × List String)),
      acp = "" ∨ a = "" → is_artist_match tsr nfkd acp a aliases = false := by
    intro tsr nfkd acp a aliases h
    unfold is_artist_match
    rw [if_pos h]
  refine ⟨hfalse, ?_⟩
  intro tsr nfkd resp artist releasegroup aliases mbid sid rd rg hmem
  intro hacp
  have hmatch : is_artist_match tsr nfkd rg.artist_credit_phrase artist aliases = true := by
    simp only [search_release_groups] at hmem
    cases hv : tryVariants tsr nfkd resp artist mbid aliases sid rd
        (generate_title_variations releasegroup) with
    | some r =>
      simp only [hv] at hmem
      exact tryVariants_mem tsr nfkd resp artist mbid aliases sid rd _ r rg hv hmem
    | none =>
      simp only [hv] at hmem
      cases hf : tryFallback tsr nfkd resp artist aliases
          (generate_title_variations releasegroup) with
      | some r =>
        simp only [hf] at hmem
        exact tryFallback_mem tsr nfkd resp artist aliases _ r rg hf hmem
      | none =>
        simp only [hf] at hmem
        cases hmem
  rw [hfalse tsr nfkd rg.artist_credit_phrase artist aliases (Or.inl hacp)] at hmatch
  cases hmatch

/-- C10, witness: the empty-credit guard at a concrete input, and the
non-empty credit phrase of a concretely returned candidate. -/
theorem artist_filter_empty_credit_guard_witness :
    is_artist_match tsrZero nfkdId "" "Suede" [] = false ∧
    rgAJ.artist_credit_phrase ≠ "" :=
  ⟨artist_filter_empty_credit_guard.1 tsrZero nfkdId "" "Suede" [] (Or.inl rfl),
   artist_filter_empty_credit_guard.2 tsrZero nfkdId respSuede "Suede" "Dog Man Star"
     [] none none none rgAJ (by decide)⟩
